import Mathlib

/-!
Shallow embedding of the OLAP cube query engine in
`src/models/olap_cube.py` (class `OlapCube`), for checking the
natural-language specification against the code.

Modelling conventions:
* A polars `DataFrame` is a list of column names plus a list of rows,
  each row a list of cell values aligned with the column list.
* Cell values are strings, 64-bit integers (modelled as `Int`) or
  floating-point numbers (modelled as `ℚ`, since the arithmetic the
  code performs — sums and means — is exact on the inputs considered).
* Python `ValueError` exceptions raised by the repository code are
  `CubeError.valueError msg`; exceptions raised inside the polars
  library and not caught by the repository code are
  `CubeError.polarsError msg`.
-/

/-- A cell value of the data frame. -/
inductive Value
  | vStr (s : String)
  | vInt (n : Int)
  | vFloat (q : ℚ)
deriving DecidableEq, Repr

/-- A polars data frame: a schema (ordered column names) and rows of
cells aligned with the schema. -/
structure DataFrame where
  cols : List String
  rows : List (List Value)
deriving DecidableEq, Repr

/-- Errors that can escape `OlapCube` methods: `ValueError`s raised by
the repository code itself (carrying the message string the code
builds), and errors raised inside polars that the code does not catch. -/
inductive CubeError
  | valueError (msg : String)
  | polarsError (msg : String)
deriving DecidableEq, Repr

/-- Equality of `Except` results is decidable (needed to evaluate the
model on concrete inputs). -/
instance {e a : Type} [DecidableEq e] [DecidableEq a] :
    DecidableEq (Except e a) := fun x y =>
  match x, y with
  | .ok v, .ok w =>
    if h : v = w then isTrue (by rw [h])
    else isFalse (fun hc => by injection hc with hc; exact h hc)
  | .error v, .error w =>
    if h : v = w then isTrue (by rw [h])
    else isFalse (fun hc => by injection hc with hc; exact h hc)
  | .ok _, .error _ => isFalse (fun hc => by injection hc)
  | .error _, .ok _ => isFalse (fun hc => by injection hc)

/-- `OlapCube.HIERARCHY_MAP` from the source: requested grouping key →
ordered list of lower-case column names. -/
def HIERARCHY_MAP : List (String × List String) :=
  [("Anio", ["anio"]),
   ("Producto", ["producto"]),
   ("Proyecto", ["proyecto"]),
   ("Anio_Producto", ["anio", "producto"]),
   ("Proyecto_Anio", ["proyecto", "anio"])]

/-- `OlapCube.VALID_MEASURES_NAMES` from the source. -/
def VALID_MEASURES_NAMES : List String :=
  ["cpi_index_promedio",
   "spi_index_promedio",
   "schedule_variance_sum",
   "densidad_defectos_promedio"]

/-- The registered hierarchy keys, in registration order
(`list(HIERARCHY_MAP.keys())` in Python). -/
def hierarchyKeys : List String := HIERARCHY_MAP.map Prod.fst

/-- A single-quote character, as Python `repr` uses around strings. -/
def pyQuoteChar : String := (Char.ofNat 39).toString

/-- Python `repr` of a list of strings, as an f-string interpolates it. -/
def pyListRepr (ks : List String) : String :=
  "[" ++ String.intercalate ", " (ks.map (fun k => pyQuoteChar ++ k ++ pyQuoteChar)) ++ "]"

/-- Message of the `ValueError` raised for an unknown hierarchy key
(olap_cube.py line 55). -/
def invalidHierarchyMsg : String :=
  "Jerarquía de agrupación inválida. Use una de: " ++ pyListRepr hierarchyKeys

/-- Message of the `ValueError` raised when a KPI column is missing
(olap_cube.py line 67); the f-string interpolates the polars error,
which names the missing column. -/
def schemaErrorMsg (c : String) : String :=
  "Error interno: Columna KPI no encontrada (" ++ c ++ "). Revise el procesador OLAP."

/-- Message of the `ValueError` raised by the constructor on an empty
data frame (olap_cube.py line 33). -/
def emptyBaseMsg : String := "El DataFrame del cubo no puede estar vacío."

/-- Characters Python `str.strip()` removes (the whitespace characters
relevant here, including the no-break space U+00A0, which Python
considers whitespace). -/
def pyIsSpace (c : Char) : Bool :=
  c == ' ' || c == '\t' || c == '\n' || c == '\r' ||
  c == Char.ofNat 11 || c == Char.ofNat 12 || c == Char.ofNat 160

/-- Python `s.strip()` on a character list. -/
def pyStrip (s : List Char) : List Char :=
  ((s.dropWhile pyIsSpace).reverse.dropWhile pyIsSpace).reverse

/-- `s.replace('﻿', '').replace('\xa0', '')`: drop every zero-width
no-break space and no-break space. -/
def removeInvisible (s : List Char) : List Char :=
  s.filter (fun c => !(c == Char.ofNat 0xFEFF || c == Char.ofNat 0xA0))

/-- The hardening cleanup of the requested dimension
(olap_cube.py line 49): strip surrounding whitespace, then remove all
U+FEFF and U+00A0 characters. -/
def cleanDimension (s : String) : String :=
  String.mk (removeInvisible (pyStrip s.data))

/-- Python `dict` lookup on `HIERARCHY_MAP` (keys are unique). -/
def hmLookup (k : String) : Option (List String) :=
  (HIERARCHY_MAP.find? (fun e => e.1 == k)).map Prod.snd

/-- Index of a column name in a schema. -/
def colIndex (cols : List String) (c : String) : Option Nat :=
  cols.indexOf? c

/-- The value a row holds in a named column. -/
def rowVal (cols : List String) (r : List Value) (c : String) : Option Value :=
  (colIndex cols c).bind fun i => r.get? i

/-- Casting one cell to `pl.Float64`: integers widen, floats stay, a
string cell makes the strict cast raise inside polars (`none`). -/
def castCell (c : String) (v : Value) : Option Value :=
  if VALID_MEASURES_NAMES.contains c then
    match v with
    | .vInt n => some (.vFloat n)
    | .vFloat q => some (.vFloat q)
    | .vStr _ => none
  else some v

/-- Cast every KPI cell of one row (cells aligned with `cols`). -/
def castRow (cols : List String) : List String → List Value → Option (List Value)
  | [], r => some r
  | _ :: _, [] => some []
  | c :: cs, v :: vs =>
    match castCell c v, castRow cols cs vs with
    | some v2, some vs2 => some (v2 :: vs2)
    | _, _ => none

/-- Cast every KPI cell of every row. -/
def castRows (cols : List String) : List (List Value) → Option (List (List Value))
  | [] => some []
  | r :: rs =>
    match castRow cols cols r, castRows cols rs with
    | some r2, some rs2 => some (r2 :: rs2)
    | _, _ => none

/-- Step 2 of `olap_query` (olap_cube.py lines 58-67): force the KPI
columns to Float64; a missing KPI column raises
`pl.ColumnNotFoundError`, which the code catches and re-raises as a
`ValueError` naming the column. -/
def castMeasures (df : DataFrame) : Except CubeError DataFrame :=
  match VALID_MEASURES_NAMES.find? (fun m => !(df.cols.contains m)) with
  | some c => .error (.valueError (schemaErrorMsg c))
  | none =>
    match castRows df.cols df.rows with
    | some rs => .ok ⟨df.cols, rs⟩
    | none => .error (.polarsError "conversion to Float64 failed")

/-- The equality test `pl.col(c) == lit` on one cell: numeric values
compare numerically, strings compare as strings; comparing a numeric
cell with a string literal (or vice versa) is left to polars'
version-dependent literal-coercion behaviour (`none`, treated as a
polars error). -/
def litEq : Value → Value → Option Bool
  | .vInt a, .vInt b => some (a == b)
  | .vInt a, .vFloat b => some ((a : ℚ) == b)
  | .vFloat a, .vInt b => some (a == (b : ℚ))
  | .vFloat a, .vFloat b => some (a == b)
  | .vStr a, .vStr b => some (a == b)
  | _, _ => none

/-- The condition `if anio: ...` contributes (olap_cube.py lines 72-73):
nothing when `anio` is `None` or the falsy `0`. -/
def anioFilter : Option Int → List (String × Value)
  | some n => if n == 0 then [] else [("anio", Value.vInt n)]
  | none => []

/-- The condition `if producto: ...` contributes (lines 74-75): nothing
when `producto` is `None` or the falsy `""`. -/
def productoFilter : Option String → List (String × Value)
  | some s => if s == "" then [] else [("producto", Value.vStr s)]
  | none => []

/-- The condition `if proyecto: ...` contributes (lines 76-77): nothing
when `proyecto` is `None` or the falsy `""`. -/
def proyectoFilter : Option String → List (String × Value)
  | some s => if s == "" then [] else [("proyecto", Value.vStr s)]
  | none => []

/-- The filter conditions `olap_query` builds (olap_cube.py lines
70-77): one equality per parameter that is truthy in Python — `None`,
`0` and `""` all fail the `if` guard and contribute nothing. -/
def activeFilters (anio : Option Int) (producto proyecto : Option String) :
    List (String × Value) :=
  anioFilter anio ++ productoFilter producto ++ proyectoFilter proyecto

/-- One condition `pl.col(c) == v` evaluated on one row. -/
def condEval (cols : List String) (r : List Value) (cv : String × Value) :
    Option Bool :=
  match rowVal cols r cv.1 with
  | none => none
  | some v => litEq v cv.2

/-- The conjunction (`&`) of all conditions on one row. -/
def rowPasses (cols : List String) : List (String × Value) → List Value → Option Bool
  | [], _ => some true
  | cv :: fs, r =>
    match condEval cols r cv, rowPasses cols fs r with
    | some b1, some b2 => some (b1 && b2)
    | _, _ => none

/-- `df.filter(combined_filter)`: keep, in order, the rows on which the
combined condition is true; a condition polars cannot evaluate raises. -/
def filterRows (cols : List String) (fs : List (String × Value)) :
    List (List Value) → Except CubeError (List (List Value))
  | [] => .ok []
  | r :: rs =>
    match rowPasses cols fs r with
    | none => .error (.polarsError "cannot evaluate filter comparison")
    | some b =>
      match filterRows cols fs rs with
      | .error e => .error e
      | .ok rest => .ok (if b then r :: rest else rest)

/-- Step 3 of `olap_query` (olap_cube.py lines 70-83): build the
conjunctive filter from the truthy parameters and apply it; with no
conditions the frame passes through unchanged; filtering on a column
absent from the schema raises `ColumnNotFoundError` inside polars. -/
def applyFilters (df : DataFrame) (anio : Option Int)
    (producto proyecto : Option String) : Except CubeError DataFrame :=
  if (activeFilters anio producto proyecto).isEmpty then .ok df
  else if (activeFilters anio producto proyecto).all
      (fun cv => df.cols.contains cv.1) then
    match filterRows df.cols (activeFilters anio producto proyecto) df.rows with
    | .error e => .error e
    | .ok rs => .ok ⟨df.cols, rs⟩
  else .error (.polarsError "filter column not found")

/-- Numeric reading of a cell (the KPI cells are all floats after the
cast stage). -/
def Value.toRat : Value → ℚ
  | .vStr _ => 0
  | .vInt n => n
  | .vFloat q => q

/-- The values a list of rows holds in a named column, read numerically. -/
def colVals (cols : List String) (c : String) (rows : List (List Value)) :
    List ℚ :=
  rows.map (fun r => ((rowVal cols r c).getD (.vInt 0)).toRat)

/-- `pl.sum` of a list of values. -/
def ratSum (xs : List ℚ) : ℚ := xs.sum

/-- `pl.mean` of a list of values. -/
def ratMean (xs : List ℚ) : ℚ := xs.sum / xs.length

/-- The group key of a row: its values in the group columns, in order. -/
def keyOf (cols groups : List String) (r : List Value) : List Value :=
  groups.map (fun g => (rowVal cols r g).getD (.vInt 0))

/-- Value for sorting: polars orders a numeric column numerically and a
string column lexicographically (columns are homogeneous, so the
relative order of the two kinds never matters). -/
def Value.sortVal : Value → ℚ ⊕ String
  | .vInt n => .inl n
  | .vFloat q => .inl q
  | .vStr s => .inr s

/-- Strict order used by `sort` on one cell. -/
def svLt : ℚ ⊕ String → ℚ ⊕ String → Bool
  | .inl a, .inl b => decide (a < b)
  | .inl _, .inr _ => true
  | .inr _, .inl _ => false
  | .inr a, .inr b => decide (a < b)

/-- Sort-equality on one cell. -/
def svEq : ℚ ⊕ String → ℚ ⊕ String → Bool
  | .inl a, .inl b => decide (a = b)
  | .inr a, .inr b => decide (a = b)
  | _, _ => false

/-- Strict sort order on cells. -/
def valLtB (a b : Value) : Bool := svLt a.sortVal b.sortVal

/-- Sort-equality on cells. -/
def valEqB (a b : Value) : Bool := svEq a.sortVal b.sortVal

/-- Ascending lexicographic comparison of group-key tuples, comparing
group columns left to right (`df.sort(groups)`). -/
def keyLe : List Value → List Value → Bool
  | [], _ => true
  | _ :: _, [] => false
  | a :: as, b :: bs => valLtB a b || (valEqB a b && keyLe as bs)

/-- The sort order on group-key tuples, as a decidable relation. -/
def keyLeP (a b : List Value) : Prop := keyLe a b = true

instance : DecidableRel keyLeP := fun a b => by
  unfold keyLeP
  infer_instance

/-- The output row for one group key: the key values followed by the
four aggregated measures, in the order the aggregation list declares
them (olap_cube.py lines 86-91): mean, mean, sum, mean. -/
def resultRowFor (cols groups : List String) (rows : List (List Value))
    (k : List Value) : List Value :=
  let grp := rows.filter (fun r => keyOf cols groups r == k)
  k ++ [.vFloat (ratMean (colVals cols "cpi_index_promedio" grp)),
        .vFloat (ratMean (colVals cols "spi_index_promedio" grp)),
        .vFloat (ratSum (colVals cols "schedule_variance_sum" grp)),
        .vFloat (ratMean (colVals cols "densidad_defectos_promedio" grp))]

/-- Step 4 of `olap_query` (olap_cube.py lines 86-93):
`df.group_by(groups).agg(aggregations).sort(groups)` — one output row
per distinct group-key tuple, sorted ascending by the group columns;
grouping or aggregating on a column absent from the schema raises
inside polars. -/
def groupAggSort (df : DataFrame) (groups : List String) :
    Except CubeError DataFrame :=
  if groups.all (fun g => df.cols.contains g) &&
     VALID_MEASURES_NAMES.all (fun m => df.cols.contains m) then
    let keys := (df.rows.map (keyOf df.cols groups)).dedup
    .ok ⟨groups ++ VALID_MEASURES_NAMES,
         (List.insertionSort keyLeP keys).map (resultRowFor df.cols groups df.rows)⟩
  else .error (.polarsError "group or aggregation column not found")

/-- The `OlapCube` engine: it owns the base data frame. -/
structure OlapCube where
  df_base : DataFrame
deriving DecidableEq, Repr

/-- `OlapCube.__init__` (olap_cube.py lines 30-34): reject an empty
data frame with a `ValueError`, otherwise store it. -/
def OlapCube.init (df : DataFrame) : Except CubeError OlapCube :=
  if df.rows.isEmpty then .error (.valueError emptyBaseMsg) else .ok ⟨df⟩

/-- `OlapCube.olap_query` (olap_cube.py lines 36-95): clean the
requested dimension, resolve the hierarchy, cast the KPI columns,
apply the truthy filters, then group, aggregate and sort. -/
def OlapCube.olap_query (cube : OlapCube) (group_by_dimension : String)
    (anio : Option Int) (producto proyecto : Option String) :
    Except CubeError DataFrame :=
  match hmLookup (cleanDimension group_by_dimension) with
  | none => .error (.valueError invalidHierarchyMsg)
  | some groups =>
    match castMeasures cube.df_base with
    | .error e => .error e
    | .ok dfC =>
      match applyFilters dfC anio producto proyecto with
      | .error e => .error e
      | .ok dfF => groupAggSort dfF groups

/-- `needle` is an initial segment of `hay`. -/
def leadsWith : List Char → List Char → Bool
  | [], _ => true
  | _ :: _, [] => false
  | a :: as, b :: bs => a == b && leadsWith as bs

/-- `needle` occurs contiguously somewhere inside `hay` (used to state
that an error message includes a given key name). -/
def occursIn (needle : List Char) : List Char → Bool
  | [] => leadsWith needle []
  | c :: t => leadsWith needle (c :: t) || occursIn needle t

/-- Modelled from the spec's words for comparison with the code (claim
about the filter stage): one equality test per NON-ABSENT filter entry
— `0` and `""` count as present constraints here, unlike in the code's
truthiness guard. -/
def nonAbsentFilters (anio : Option Int) (producto proyecto : Option String) :
    List (String × Value) :=
  (match anio with
   | some n => [("anio", Value.vInt n)]
   | none => []) ++
  (match producto with
   | some s => [("producto", Value.vStr s)]
   | none => []) ++
  (match proyecto with
   | some s => [("proyecto", Value.vStr s)]
   | none => [])

/-- Modelled from the spec's words for comparison with the code: the
filter stage as the claim describes it — keep exactly the rows
satisfying the conjunction of one equality test per non-absent entry. -/
def specFilterRows (cols : List String) (anio : Option Int)
    (producto proyecto : Option String) (rows : List (List Value)) :
    List (List Value) :=
  rows.filter (fun r =>
    (nonAbsentFilters anio producto proyecto).all
      (fun cv => condEval cols r cv == some true))

/-- Concrete snapshot used by the witnesses: the three dimension
columns and the four KPI columns, three rows. -/
def dfW : DataFrame :=
  ⟨["anio", "producto", "proyecto", "cpi_index_promedio", "spi_index_promedio",
    "schedule_variance_sum", "densidad_defectos_promedio"],
   [[.vInt 2023, .vStr "A", .vStr "P1", .vFloat (4/5), .vFloat 1, .vFloat 5, .vFloat (1/2)],
    [.vInt 2023, .vStr "B", .vStr "P2", .vFloat (6/5), .vFloat 1, .vFloat 7, .vFloat (1/2)],
    [.vInt 2024, .vStr "A", .vStr "P1", .vFloat 1, .vFloat 2, .vFloat (-3), .vFloat (3/2)]]⟩

/-- Witness cube over `dfW`. -/
def cubeW : OlapCube := ⟨dfW⟩

/-- `dfW` filtered to `producto = "A"` (the witness filter result). -/
def dfFW : DataFrame :=
  ⟨dfW.cols,
   [[.vInt 2023, .vStr "A", .vStr "P1", .vFloat (4/5), .vFloat 1, .vFloat 5, .vFloat (1/2)],
    [.vInt 2024, .vStr "A", .vStr "P1", .vFloat 1, .vFloat 2, .vFloat (-3), .vFloat (3/2)]]⟩

/-- Witness snapshot with the `cpi_index_promedio` KPI column missing. -/
def dfMissW : DataFrame :=
  ⟨["anio", "producto", "proyecto", "spi_index_promedio",
    "schedule_variance_sum", "densidad_defectos_promedio"],
   [[.vInt 2023, .vStr "A", .vStr "P1", .vFloat 1, .vFloat 5, .vFloat (1/2)]]⟩

/-- `dfW` filtered to `anio = 2023` (witness data for the amended
filter claim). -/
def dfAnio2023 : DataFrame :=
  ⟨dfW.cols,
   [[.vInt 2023, .vStr "A", .vStr "P1", .vFloat (4/5), .vFloat 1, .vFloat 5, .vFloat (1/2)],
    [.vInt 2023, .vStr "B", .vStr "P2", .vFloat (6/5), .vFloat 1, .vFloat 7, .vFloat (1/2)]]⟩

/-- Result of `olap_query("Anio", producto="A")` on `cubeW`. -/
def resAnioA : DataFrame :=
  (OlapCube.olap_query ⟨dfW⟩ "Anio" none (some "A") none).toOption.getD ⟨[], []⟩

/-- Result of `olap_query("Anio", anio=2023, producto="A")` on `cubeW`. -/
def resAnioA2023 : DataFrame :=
  (OlapCube.olap_query ⟨dfW⟩ "Anio" (some 2023) (some "A") none).toOption.getD ⟨[], []⟩

/-! ### Order infrastructure for the sort stage -/

theorem svLt_trans {a b c : ℚ ⊕ String} (h1 : svLt a b = true)
    (h2 : svLt b c = true) : svLt a c = true := by
  cases a <;> cases b <;> cases c <;> simp_all [svLt]
  · exact h1.trans h2
  · exact h1.trans h2

theorem svEq_trans {a b c : ℚ ⊕ String} (h1 : svEq a b = true)
    (h2 : svEq b c = true) : svEq a c = true := by
  cases a <;> cases b <;> cases c <;> simp_all [svEq]

theorem svEq_symm (a b : ℚ ⊕ String) : svEq a b = svEq b a := by
  cases a <;> cases b <;> simp [svEq, eq_comm]

theorem svLt_of_lt_of_eq {a b c : ℚ ⊕ String} (h1 : svLt a b = true)
    (h2 : svEq b c = true) : svLt a c = true := by
  cases a <;> cases b <;> cases c <;> simp_all [svLt, svEq]

theorem svLt_of_eq_of_lt {a b c : ℚ ⊕ String} (h1 : svEq a b = true)
    (h2 : svLt b c = true) : svLt a c = true := by
  cases a <;> cases b <;> cases c <;> simp_all [svLt, svEq]

theorem sv_total (a b : ℚ ⊕ String) :
    svLt a b = true ∨ svEq a b = true ∨ svLt b a = true := by
  cases a with
  | inl qa =>
    cases b with
    | inl qb =>
      rcases lt_trichotomy qa qb with h | h | h
      · exact Or.inl (by simp [svLt, h])
      · exact Or.inr (Or.inl (by simp [svEq, h]))
      · exact Or.inr (Or.inr (by simp [svLt, h]))
    | inr _ => exact Or.inl (by simp [svLt])
  | inr sa =>
    cases b with
    | inl _ => exact Or.inr (Or.inr (by simp [svLt]))
    | inr sb =>
      rcases lt_trichotomy sa sb with h | h | h
      · exact Or.inl (by simp [svLt, h])
      · exact Or.inr (Or.inl (by simp [svEq, h]))
      · exact Or.inr (Or.inr (by simp [svLt, h]))

theorem keyLe_trans :
    ∀ a b c : List Value, keyLe a b = true → keyLe b c = true → keyLe a c = true := by
  intro a
  induction a with
  | nil => intro b c _ _; rfl
  | cons x xs ih =>
    intro b c h1 h2
    cases b with
    | nil => simp [keyLe] at h1
    | cons y ys =>
      cases c with
      | nil => simp [keyLe] at h2
      | cons z zs =>
        simp only [keyLe, valLtB, valEqB, Bool.or_eq_true, Bool.and_eq_true] at h1 h2 ⊢
        rcases h1 with h1 | ⟨he1, hr1⟩
        · rcases h2 with h2 | ⟨he2, _⟩
          · exact Or.inl (svLt_trans h1 h2)
          · exact Or.inl (svLt_of_lt_of_eq h1 he2)
        · rcases h2 with h2 | ⟨he2, hr2⟩
          · exact Or.inl (svLt_of_eq_of_lt he1 h2)
          · exact Or.inr ⟨svEq_trans he1 he2, ih ys zs hr1 hr2⟩

theorem keyLe_total :
    ∀ a b : List Value, keyLe a b = true ∨ keyLe b a = true := by
  intro a
  induction a with
  | nil => intro b; exact Or.inl rfl
  | cons x xs ih =>
    intro b
    cases b with
    | nil => exact Or.inr rfl
    | cons y ys =>
      simp only [keyLe, valLtB, valEqB, Bool.or_eq_true, Bool.and_eq_true]
      rcases sv_total x.sortVal y.sortVal with h | h | h
      · exact Or.inl (Or.inl h)
      · rcases ih ys with h2 | h2
        · exact Or.inl (Or.inr ⟨h, h2⟩)
        · exact Or.inr (Or.inr ⟨(svEq_symm x.sortVal y.sortVal) ▸ h, h2⟩)
      · exact Or.inr (Or.inl h)

/-! ### Characterization of the pipeline stages -/

theorem rowPasses_eq_true_iff {cols : List String} {fs : List (String × Value)}
    {r : List Value} :
    rowPasses cols fs r = some true ↔ ∀ cv ∈ fs, condEval cols r cv = some true := by
  induction fs with
  | nil => simp [rowPasses]
  | cons cv fs ih =>
    rw [rowPasses]
    cases h1 : condEval cols r cv with
    | none => simp [h1]
    | some b1 =>
      cases h2 : rowPasses cols fs r with
      | none =>
        simp only [h1]
        constructor
        · intro h; cases h
        · intro h
          exact absurd (ih.mpr fun cv2 hcv2 => h cv2 (List.mem_cons_of_mem _ hcv2))
            (by simp [h2])
      | some b2 =>
        simp only [h1]
        constructor
        · intro h
          injection h with h
          obtain ⟨hb1, hb2⟩ := Bool.and_eq_true_iff.mp h
          intro cv2 hcv2
          rcases List.mem_cons.mp hcv2 with rfl | hcv2
          · rw [h1, hb1]
          · exact ih.mp (hb2 ▸ h2) cv2 hcv2
        · intro h
          have hb1 : b1 = true := by
            have := h cv (List.mem_cons_self cv fs)
            rw [h1] at this; injection this
          have hb2 : b2 = true := by
            have := ih.mpr fun cv2 hcv2 => h cv2 (List.mem_cons_of_mem _ hcv2)
            rw [h2] at this; injection this
          rw [hb1, hb2]
          rfl

theorem filterRows_ok {cols : List String} {fs : List (String × Value)}
    {rows kept : List (List Value)} (h : filterRows cols fs rows = .ok kept) :
    kept = rows.filter (fun r => rowPasses cols fs r == some true) := by
  induction rows generalizing kept with
  | nil =>
    rw [filterRows] at h
    injection h with h
    simp [← h]
  | cons r rs ih =>
    rw [filterRows] at h
    cases hp : rowPasses cols fs r with
    | none => rw [hp] at h; cases h
    | some b =>
      rw [hp] at h
      cases hf : filterRows cols fs rs with
      | error e => rw [hf] at h; cases h
      | ok rest =>
        rw [hf] at h
        injection h with h
        subst h
        cases b <;> simp [List.filter_cons, hp, ih hf]

theorem applyFilters_ok {df : DataFrame} {a : Option Int} {p pr : Option String}
    {df2 : DataFrame} (h : applyFilters df a p pr = .ok df2) :
    df2.cols = df.cols ∧
    df2.rows = df.rows.filter
      (fun r => rowPasses df.cols (activeFilters a p pr) r == some true) := by
  unfold applyFilters at h
  split at h
  · next hemp =>
    injection h with h
    subst h
    refine ⟨rfl, ?_⟩
    rw [List.isEmpty_iff.mp hemp]
    have : ∀ r ∈ df.rows, (rowPasses df.cols [] r == some true) = true := by
      intro r _; rfl
    rw [List.filter_congr this]
    simp
  · split at h
    · cases hf : filterRows df.cols (activeFilters a p pr) df.rows with
      | error e => rw [hf] at h; cases h
      | ok rs =>
        rw [hf] at h
        injection h with h
        subst h
        exact ⟨rfl, filterRows_ok hf⟩
    · cases h

theorem applyFilters_noactive {df : DataFrame} {a : Option Int} {p pr : Option String}
    (h : activeFilters a p pr = []) : applyFilters df a p pr = .ok df := by
  unfold applyFilters
  rw [h]
  rfl

theorem castMeasures_ok {df df2 : DataFrame} (h : castMeasures df = .ok df2) :
    df2.cols = df.cols ∧
    ∀ m ∈ VALID_MEASURES_NAMES, df.cols.contains m = true := by
  unfold castMeasures at h
  cases hf : VALID_MEASURES_NAMES.find? (fun m => !(df.cols.contains m)) with
  | some c => rw [hf] at h; cases h
  | none =>
    rw [hf] at h
    refine ⟨?_, ?_⟩
    · cases hr : castRows df.cols df.rows with
      | none => rw [hr] at h; cases h
      | some rs =>
        rw [hr] at h
        injection h with h
        rw [← h]
    · intro m hm
      have := List.find?_eq_none.mp hf m hm
      simpa using this

theorem groupAggSort_ok {df : DataFrame} {groups : List String} {res : DataFrame}
    (h : groupAggSort df groups = .ok res) :
    res.cols = groups ++ VALID_MEASURES_NAMES ∧
    res.rows = (List.insertionSort keyLeP ((df.rows.map (keyOf df.cols groups)).dedup)).map
      (resultRowFor df.cols groups df.rows) := by
  unfold groupAggSort at h
  split at h
  · injection h with h
    rw [← h]
    exact ⟨rfl, rfl⟩
  · cases h

theorem keyOf_length (cols groups : List String) (r : List Value) :
    (keyOf cols groups r).length = groups.length := by
  simp [keyOf]

theorem resultRowFor_take {cols groups : List String} {rows : List (List Value)}
    {k : List Value} (hk : k.length = groups.length) :
    (resultRowFor cols groups rows k).take groups.length = k := by
  rw [resultRowFor, ← hk]
  exact List.take_left k _

theorem mem_sortedKeys_length {df : DataFrame} {groups : List String} {k : List Value}
    (hk : k ∈ List.insertionSort keyLeP ((df.rows.map (keyOf df.cols groups)).dedup)) :
    k.length = groups.length := by
  have h1 := (List.perm_insertionSort keyLeP _).mem_iff.mp hk
  have h2 := List.mem_dedup.mp h1
  obtain ⟨r, _, rfl⟩ := List.mem_map.mp h2
  exact keyOf_length _ _ _

theorem resKeys {df : DataFrame} {groups : List String} {res : DataFrame}
    (h : groupAggSort df groups = .ok res) :
    res.rows.map (fun r => r.take groups.length)
      = List.insertionSort keyLeP ((df.rows.map (keyOf df.cols groups)).dedup) := by
  obtain ⟨_, hrows⟩ := groupAggSort_ok h
  rw [hrows, List.map_map]
  have : ∀ k ∈ List.insertionSort keyLeP ((df.rows.map (keyOf df.cols groups)).dedup),
      ((fun r => r.take groups.length) ∘ resultRowFor df.cols groups df.rows) k = id k := by
    intro k hk
    exact resultRowFor_take (mem_sortedKeys_length hk)
  rw [List.map_congr_left this, List.map_id]

theorem resKeys_mem {df : DataFrame} {groups : List String} {res : DataFrame}
    {k : List Value} (h : groupAggSort df groups = .ok res) :
    k ∈ res.rows.map (fun r => r.take groups.length) ↔
      ∃ r ∈ df.rows, keyOf df.cols groups r = k := by
  rw [resKeys h, (List.perm_insertionSort keyLeP _).mem_iff, List.mem_dedup, List.mem_map]

theorem olap_query_ok {cube : OlapCube} {key : String} {a : Option Int}
    {p pr : Option String} {res : DataFrame}
    (h : cube.olap_query key a p pr = .ok res) :
    ∃ groups dfC dfF,
      hmLookup (cleanDimension key) = some groups ∧
      castMeasures cube.df_base = .ok dfC ∧
      applyFilters dfC a p pr = .ok dfF ∧
      groupAggSort dfF groups = .ok res := by
  unfold OlapCube.olap_query at h
  split at h
  · cases h
  · rename_i groups hg
    split at h
    · cases h
    · rename_i dfC hc
      split at h
      · cases h
      · rename_i dfF hf
        exact ⟨groups, dfC, dfF, hg, hc, hf, h⟩

theorem olap_query_pipeline {cube : OlapCube} {key : String} {a : Option Int}
    {p pr : Option String} {groups : List String} {dfC dfF : DataFrame}
    (hg : hmLookup (cleanDimension key) = some groups)
    (hc : castMeasures cube.df_base = .ok dfC)
    (hf : applyFilters dfC a p pr = .ok dfF) :
    cube.olap_query key a p pr = groupAggSort dfF groups := by
  unfold OlapCube.olap_query
  simp only [hg, hc, hf]

theorem activeFilters_subset {a1 a2 : Option Int} {p1 p2 pr1 pr2 : Option String}
    (ha : a1 = none ∨ a1 = a2) (hp : p1 = none ∨ p1 = p2)
    (hpr : pr1 = none ∨ pr1 = pr2) :
    activeFilters a1 p1 pr1 ⊆ activeFilters a2 p2 pr2 := by
  have hsA : anioFilter a1 ⊆ anioFilter a2 := by
    rcases ha with rfl | rfl
    · intro x hx; simp [anioFilter] at hx
    · exact fun x hx => hx
  have hsP : productoFilter p1 ⊆ productoFilter p2 := by
    rcases hp with rfl | rfl
    · intro x hx; simp [productoFilter] at hx
    · exact fun x hx => hx
  have hsPr : proyectoFilter pr1 ⊆ proyectoFilter pr2 := by
    rcases hpr with rfl | rfl
    · intro x hx; simp [proyectoFilter] at hx
    · exact fun x hx => hx
  intro x hx
  unfold activeFilters at hx ⊢
  rcases List.mem_append.mp hx with hx1 | hx3
  · rcases List.mem_append.mp hx1 with hxa | hxp
    · exact List.mem_append.mpr (Or.inl (List.mem_append.mpr (Or.inl (hsA hxa))))
    · exact List.mem_append.mpr (Or.inl (List.mem_append.mpr (Or.inr (hsP hxp))))
  · exact List.mem_append.mpr (Or.inr (hsPr hx3))

/-! ### The claims -/

/-- C2: every key whose cleaned form matches no registered hierarchy
makes `olap_query` fail with the invalid-hierarchy `ValueError`, whose
message includes every valid hierarchy key; it never silently defaults
to any hierarchy. -/
theorem claim2_invalid_hierarchy (cube : OlapCube) (key : String)
    (a : Option Int) (p pr : Option String)
    (h : hmLookup (cleanDimension key) = none) :
    cube.olap_query key a p pr = .error (.valueError invalidHierarchyMsg) ∧
    ∀ k ∈ hierarchyKeys, occursIn k.data invalidHierarchyMsg.data = true := by
  constructor
  · unfold OlapCube.olap_query
    simp only [h]
  · decide

/-- Witness: the unknown key "NotARealKey" on the concrete cube. -/
theorem claim2_witness :
    hmLookup (cleanDimension "NotARealKey") = none ∧
    (cubeW.olap_query "NotARealKey" none none none
       = .error (.valueError invalidHierarchyMsg) ∧
     ∀ k ∈ hierarchyKeys, occursIn k.data invalidHierarchyMsg.data = true) :=
  ⟨by decide, claim2_invalid_hierarchy cubeW "NotARealKey" none none none (by decide)⟩

/-- C5: with a valid hierarchy whose group columns exist, a filter set
that excludes every row makes `olap_query` return an empty result
frame — a success, not an error. -/
theorem claim5_empty_result (cube : OlapCube) (key : String) (groups : List String)
    (a : Option Int) (p pr : Option String) (dfC dfF : DataFrame)
    (hg : hmLookup (cleanDimension key) = some groups)
    (hc : castMeasures cube.df_base = .ok dfC)
    (hf : applyFilters dfC a p pr = .ok dfF)
    (hgc : ∀ g ∈ groups, dfC.cols.contains g = true)
    (he : dfF.rows = []) :
    cube.olap_query key a p pr = .ok ⟨groups ++ VALID_MEASURES_NAMES, []⟩ := by
  have hcond : ((groups.all fun g => dfF.cols.contains g) &&
      (VALID_MEASURES_NAMES.all fun m => dfF.cols.contains m)) = true := by
    rw [Bool.and_eq_true]
    constructor
    · rw [List.all_eq_true]
      intro g hgm
      rw [(applyFilters_ok hf).1]
      exact hgc g hgm
    · rw [List.all_eq_true]
      intro m hm
      rw [(applyFilters_ok hf).1, (castMeasures_ok hc).1]
      exact (castMeasures_ok hc).2 m hm
  rw [olap_query_pipeline hg hc hf]
  unfold groupAggSort
  rw [if_pos hcond, he]
  rfl

/-- Witness: `query("Anio", anio=1999)` on a snapshot with years
2023/2024 only. -/
theorem claim5_witness :
    hmLookup (cleanDimension "Anio") = some ["anio"] ∧
    castMeasures cubeW.df_base = .ok dfW ∧
    applyFilters dfW (some 1999) none none = .ok ⟨dfW.cols, []⟩ ∧
    cubeW.olap_query "Anio" (some 1999) none none
      = .ok ⟨["anio"] ++ VALID_MEASURES_NAMES, []⟩ :=
  ⟨by decide, rfl, rfl,
   claim5_empty_result cubeW "Anio" ["anio"] (some 1999) none none dfW ⟨dfW.cols, []⟩
     (by decide) rfl rfl (by decide) rfl⟩

/-- C6: constructing the engine with a zero-row snapshot fails with the
empty-base `ValueError` and yields no instance; with a non-empty
snapshot it succeeds and stores that snapshot as the base. -/
theorem claim6_empty_base (df : DataFrame) :
    (df.rows = [] → OlapCube.init df = .error (.valueError emptyBaseMsg)) ∧
    (df.rows ≠ [] → OlapCube.init df = .ok ⟨df⟩) := by
  constructor
  · intro h
    unfold OlapCube.init
    rw [h]
    rfl
  · intro h
    unfold OlapCube.init
    rw [if_neg (by simpa [List.isEmpty_iff] using h)]

/-- Witness: construction on an empty and on a non-empty snapshot. -/
theorem claim6_witness :
    OlapCube.init ⟨dfW.cols, []⟩ = .error (.valueError emptyBaseMsg) ∧
    OlapCube.init dfW = .ok ⟨dfW⟩ :=
  ⟨(claim6_empty_base ⟨dfW.cols, []⟩).1 rfl, (claim6_empty_base dfW).2 (by decide)⟩

/-- C7: with a valid hierarchy key, a snapshot missing one of the four
declared measure columns makes `olap_query` fail with the schema
`ValueError` naming a missing measure column — an error distinguishable
from the invalid-hierarchy error — rather than return any result. -/
theorem claim7_schema_error (cube : OlapCube) (key : String) (groups : List String)
    (a : Option Int) (p pr : Option String)
    (hg : hmLookup (cleanDimension key) = some groups)
    (hm : ∃ m ∈ VALID_MEASURES_NAMES, cube.df_base.cols.contains m = false) :
    ∃ c ∈ VALID_MEASURES_NAMES,
      cube.olap_query key a p pr = .error (.valueError (schemaErrorMsg c)) ∧
      schemaErrorMsg c ≠ invalidHierarchyMsg := by
  cases hfind : VALID_MEASURES_NAMES.find? (fun m => !(cube.df_base.cols.contains m)) with
  | none =>
    obtain ⟨m, hm1, hm2⟩ := hm
    have := List.find?_eq_none.mp hfind m hm1
    rw [hm2] at this
    exact absurd rfl this
  | some c =>
    have hcmem := List.mem_of_find?_eq_some hfind
    have hcast : castMeasures cube.df_base = .error (.valueError (schemaErrorMsg c)) := by
      unfold castMeasures
      rw [hfind]
    refine ⟨c, hcmem, ?_, ?_⟩
    · unfold OlapCube.olap_query
      simp only [hg, hcast]
    · fin_cases hcmem <;> decide

/-- Witness: a snapshot missing `cpi_index_promedio`. -/
theorem claim7_witness :
    hmLookup (cleanDimension "Anio") = some ["anio"] ∧
    (∃ m ∈ VALID_MEASURES_NAMES, dfMissW.cols.contains m = false) ∧
    (∃ c ∈ VALID_MEASURES_NAMES,
       OlapCube.olap_query ⟨dfMissW⟩ "Anio" none none none
         = .error (.valueError (schemaErrorMsg c)) ∧
       schemaErrorMsg c ≠ invalidHierarchyMsg) :=
  ⟨by decide, ⟨"cpi_index_promedio", by decide, by decide⟩,
   claim7_schema_error ⟨dfMissW⟩ "Anio" ["anio"] none none none (by decide)
     ⟨"cpi_index_promedio", by decide, by decide⟩⟩

/-- C10: filter values that are falsy in Python — `anio = 0`,
`producto = ""`, `proyecto = ""` — are treated exactly as if absent:
the query is identical to the unfiltered one, and the filter stage
keeps every row unchanged. -/
theorem claim10_falsy_filters (cube : OlapCube) (key : String) (df : DataFrame) :
    cube.olap_query key (some 0) (some "") (some "")
      = cube.olap_query key none none none ∧
    applyFilters df (some 0) (some "") (some "") = .ok df := by
  have haf : activeFilters (some 0) (some "") (some "") = [] := by decide
  have hid : ∀ d : DataFrame, applyFilters d (some 0) (some "") (some "") = .ok d :=
    fun d => applyFilters_noactive haf
  refine ⟨?_, hid df⟩
  unfold OlapCube.olap_query
  cases hmLookup (cleanDimension key) with
  | none => rfl
  | some groups =>
    cases castMeasures cube.df_base with
    | error e => rfl
    | ok dfC =>
      simp only [hid dfC, @applyFilters_noactive dfC none none none rfl]

/-- C1: on any query that succeeds, the output is grouped by exactly the
ordered column list registered for the hierarchy key: the result schema
is those columns followed by the measures, no two output rows share a
group-key tuple, a tuple appears exactly when some filtered row has it,
and each output row carries its group's measures reduced with the
declared functions — mean for `cpi_index_promedio`,
`spi_index_promedio` and `densidad_defectos_promedio`, sum for
`schedule_variance_sum`. -/
theorem claim1_grouping (cube : OlapCube) (key : String) (groups : List String)
    (a : Option Int) (p pr : Option String) (dfC dfF res : DataFrame)
    (hg : hmLookup (cleanDimension key) = some groups)
    (hc : castMeasures cube.df_base = .ok dfC)
    (hf : applyFilters dfC a p pr = .ok dfF)
    (hq : cube.olap_query key a p pr = .ok res) :
    res.cols = groups ++ VALID_MEASURES_NAMES ∧
    (res.rows.map (fun r => r.take groups.length)).Nodup ∧
    (∀ k, k ∈ res.rows.map (fun r => r.take groups.length) ↔
       ∃ r ∈ dfF.rows, keyOf dfF.cols groups r = k) ∧
    (∀ row ∈ res.rows,
       row = row.take groups.length ++
         [.vFloat (ratMean (colVals dfF.cols "cpi_index_promedio"
            (dfF.rows.filter
              (fun r => keyOf dfF.cols groups r == row.take groups.length)))),
          .vFloat (ratMean (colVals dfF.cols "spi_index_promedio"
            (dfF.rows.filter
              (fun r => keyOf dfF.cols groups r == row.take groups.length)))),
          .vFloat (ratSum (colVals dfF.cols "schedule_variance_sum"
            (dfF.rows.filter
              (fun r => keyOf dfF.cols groups r == row.take groups.length)))),
          .vFloat (ratMean (colVals dfF.cols "densidad_defectos_promedio"
            (dfF.rows.filter
              (fun r => keyOf dfF.cols groups r == row.take groups.length))))]) := by
  rw [olap_query_pipeline hg hc hf] at hq
  obtain ⟨hcols, hrows⟩ := groupAggSort_ok hq
  refine ⟨hcols, ?_, fun k => resKeys_mem hq, ?_⟩
  · rw [resKeys hq]
    exact (List.perm_insertionSort keyLeP _).symm.nodup (List.nodup_dedup _)
  · intro row hrow
    rw [hrows] at hrow
    obtain ⟨k, hk, rfl⟩ := List.mem_map.mp hrow
    have hlen := mem_sortedKeys_length hk
    have htake := @resultRowFor_take dfF.cols groups dfF.rows k hlen
    rw [htake]
    rfl

/-- Witness: `query("Anio", producto="A")` on the concrete cube. -/
theorem claim1_witness :
    hmLookup (cleanDimension "Anio") = some ["anio"] ∧
    castMeasures cubeW.df_base = .ok dfW ∧
    applyFilters dfW none (some "A") none = .ok dfFW ∧
    cubeW.olap_query "Anio" none (some "A") none = .ok resAnioA ∧
    (resAnioA.cols = ["anio"] ++ VALID_MEASURES_NAMES ∧
     (resAnioA.rows.map (fun r => r.take (["anio"] : List String).length)).Nodup) := by
  have h := claim1_grouping cubeW "Anio" ["anio"] none (some "A") none dfW dfFW
    resAnioA (by decide) rfl rfl rfl
  exact ⟨by decide, rfl, rfl, rfl, h.1, h.2.1⟩

/-- C3: on any query that succeeds, the output rows are sorted
ascending by the group-key tuple, comparing the group columns left to
right with the natural order of each cell (numeric for numbers,
lexicographic for strings). -/
theorem claim3_sorted (cube : OlapCube) (key : String) (groups : List String)
    (a : Option Int) (p pr : Option String) (res : DataFrame)
    (hg : hmLookup (cleanDimension key) = some groups)
    (hq : cube.olap_query key a p pr = .ok res) :
    List.Pairwise keyLeP (res.rows.map (fun r => r.take groups.length)) := by
  obtain ⟨groups2, dfC, dfF, hg2, hc, hf, hgas⟩ := olap_query_ok hq
  rw [hg] at hg2
  injection hg2 with hg2
  subst hg2
  rw [resKeys hgas]
  exact @List.sorted_insertionSort (List Value) keyLeP _
    ⟨fun a b => keyLe_total a b⟩ ⟨fun a b c => keyLe_trans a b c⟩ _

/-- Witness: sortedness of the concrete query result. -/
theorem claim3_witness :
    hmLookup (cleanDimension "Anio") = some ["anio"] ∧
    cubeW.olap_query "Anio" none (some "A") none = .ok resAnioA ∧
    List.Pairwise keyLeP
      (resAnioA.rows.map (fun r => r.take (["anio"] : List String).length)) :=
  ⟨by decide, rfl,
   claim3_sorted cubeW "Anio" ["anio"] none (some "A") none resAnioA (by decide) rfl⟩

/-- C4, counterexample: with the filter `anio = 0` on a snapshot whose
rows all have `anio = 2023` or `2024`, the claimed filter semantics
(one equality test per non-absent entry) keeps no row, but the code —
whose guard tests Python truthiness, not absence — keeps every row. -/
theorem claim4_counterexample :
    applyFilters dfW (some 0) none none = .ok dfW ∧
    specFilterRows dfW.cols (some 0) none none dfW.rows = [] ∧
    dfW.rows ≠ [] := by
  refine ⟨rfl, by decide, by decide⟩

/-- C4, amended: the filter stage keeps exactly the rows satisfying
the conjunction of one equality test per non-absent AND truthy filter
entry (`anio` not `None` and not `0`; `producto`/`proyecto` not `None`
and not `""`), preserving original relative order; absent or falsy
entries contribute no predicate, and when every entry is absent or
falsy the frame is returned unchanged. -/
theorem claim4_amended (df : DataFrame) (a : Option Int) (p pr : Option String)
    (df2 : DataFrame) (h : applyFilters df a p pr = .ok df2) :
    df2.cols = df.cols ∧
    df2.rows = df.rows.filter
      (fun r => (activeFilters a p pr).all
        (fun cv => condEval df.cols r cv == some true)) ∧
    (activeFilters a p pr = [] → df2 = df) := by
  obtain ⟨hcols, hrows⟩ := applyFilters_ok h
  refine ⟨hcols, ?_, ?_⟩
  · rw [hrows]
    apply List.filter_congr
    intro r _
    rw [Bool.eq_iff_iff]
    constructor
    · intro hT
      rw [beq_iff_eq] at hT
      rw [List.all_eq_true]
      intro cv hcv
      rw [beq_iff_eq]
      exact rowPasses_eq_true_iff.mp hT cv hcv
    · intro hT
      rw [List.all_eq_true] at hT
      rw [beq_iff_eq]
      exact rowPasses_eq_true_iff.mpr (fun cv hcv => beq_iff_eq.mp (hT cv hcv))
  · intro hempty
    have hid := @applyFilters_noactive df a p pr hempty
    rw [h] at hid
    exact Except.ok.inj hid

/-- Witness: the truthy filter `anio = 2023` on the concrete frame. -/
theorem claim4_witness :
    applyFilters dfW (some 2023) none none = .ok dfAnio2023 ∧
    dfAnio2023.rows = dfW.rows.filter
      (fun r => (activeFilters (some 2023) none none).all
        (fun cv => condEval dfW.cols r cv == some true)) :=
  ⟨rfl, (claim4_amended dfW (some 2023) none none dfAnio2023 rfl).2.1⟩

/-- C9: filter monotonicity — if every constraint of filter set `F1` is
also in `F2` (so `F2` is at least as strict), then on any hierarchy the
group-key tuples of the `F2` result form a subset of those of the `F1`
result. -/
theorem claim9_monotonic (cube : OlapCube) (key : String) (groups : List String)
    (a1 a2 : Option Int) (p1 p2 pr1 pr2 : Option String) (res1 res2 : DataFrame)
    (hg : hmLookup (cleanDimension key) = some groups)
    (ha : a1 = none ∨ a1 = a2) (hp : p1 = none ∨ p1 = p2)
    (hpr : pr1 = none ∨ pr1 = pr2)
    (h1 : cube.olap_query key a1 p1 pr1 = .ok res1)
    (h2 : cube.olap_query key a2 p2 pr2 = .ok res2) :
    ∀ k ∈ res2.rows.map (fun r => r.take groups.length),
      k ∈ res1.rows.map (fun r => r.take groups.length) := by
  obtain ⟨g1, dfC1, dfF1, hg1, hc1, hf1, hgas1⟩ := olap_query_ok h1
  obtain ⟨g2, dfC2, dfF2, hg2, hc2, hf2, hgas2⟩ := olap_query_ok h2
  rw [hg] at hg1 hg2
  injection hg1 with e1
  injection hg2 with e2
  subst e1
  subst e2
  rw [hc1] at hc2
  injection hc2 with e3
  subst e3
  intro k hk
  rw [resKeys_mem hgas2] at hk
  rw [resKeys_mem hgas1]
  obtain ⟨r, hr, hkey⟩ := hk
  obtain ⟨hcols2, hrows2⟩ := applyFilters_ok hf2
  obtain ⟨hcols1, hrows1⟩ := applyFilters_ok hf1
  rw [hrows2] at hr
  obtain ⟨hrC, hpass2⟩ := List.mem_filter.mp hr
  have hpass2x : rowPasses dfC1.cols (activeFilters a2 p2 pr2) r = some true :=
    beq_iff_eq.mp hpass2
  have hsub : activeFilters a1 p1 pr1 ⊆ activeFilters a2 p2 pr2 :=
    activeFilters_subset ha hp hpr
  have hpass1 : rowPasses dfC1.cols (activeFilters a1 p1 pr1) r = some true :=
    rowPasses_eq_true_iff.mpr
      (fun cv hcv => rowPasses_eq_true_iff.mp hpass2x cv (hsub hcv))
  refine ⟨r, ?_, ?_⟩
  · rw [hrows1]
    exact List.mem_filter.mpr ⟨hrC, beq_iff_eq.mpr hpass1⟩
  · rw [hcols1, ← hcols2]
    exact hkey

/-- Witness: `F1 = (producto="A")` against the stricter
`F2 = (anio=2023, producto="A")`. -/
theorem claim9_witness :
    hmLookup (cleanDimension "Anio") = some ["anio"] ∧
    cubeW.olap_query "Anio" none (some "A") none = .ok resAnioA ∧
    cubeW.olap_query "Anio" (some 2023) (some "A") none = .ok resAnioA2023 ∧
    ∀ k ∈ resAnioA2023.rows.map (fun r => r.take (["anio"] : List String).length),
      k ∈ resAnioA.rows.map (fun r => r.take (["anio"] : List String).length) :=
  ⟨by decide, rfl, rfl,
   claim9_monotonic cubeW "Anio" ["anio"] none (some 2023) (some "A") (some "A")
     none none resAnioA resAnioA2023 (by decide) (Or.inl rfl) (Or.inr rfl)
     (Or.inl rfl) rfl rfl⟩
